import Mathlib

/-!
# Verification of the RDF quad-decoding engine (`decoder.go`)

Shallow embedding of the quad decoder of the repository: the token
lookahead buffer (`next` / `peek`), the `DecodeAll` loop, the
`recover` / `errorf` panic discipline, the token-expectation checks
(`expect1As` / `expectAs`) and the decoder constructors
(`NewTripleDecoder` / `NewQuadDecoder`).

The lexer and the N-Quads statement parser `parseNQ` are not part of the
given source; where a claim depends on them they are modelled from the
spec (sections 3, 4.2 and 6), and each such definition carries a doc
comment saying so.

Conventions of the embedding:
* Go methods mutating the receiver become pure functions returning the
  produced value together with the updated decoder state.
* A Go `panic` becomes an explicit `PanicVal`; `recover` becomes a total
  function on outcomes.
* The lexer is a finite list of pending tokens; pulling a token from an
  exhausted lexer yields the dedicated end-of-input token (spec section 6
  lexer contract).
-/

/-- Token kinds. Modelled from the spec (section 3, Token): IRI-reference,
blank-node label, literal, language tag, datatype IRI, statement dot,
end-of-line (whitespace), end-of-input and lexical error. The lexer itself
is out of scope of the given source; `tokenError` is the kind tested by
`expect1As`/`expectAs` in `decoder.go`. -/
inductive tokenType where
  | tokenEOF : tokenType
  | tokenEOL : tokenType
  | tokenError : tokenType
  | tokenIRIAbs : tokenType
  | tokenBNode : tokenType
  | tokenLiteral : tokenType
  | tokenLang : tokenType
  | tokenDataType : tokenType
  | tokenDot : tokenType
deriving DecidableEq, Repr

/-- A lexed token: kind, raw lexeme, 1-based line and column
(spec section 3, Token). -/
structure token where
  typ : tokenType
  text : String
  line : Nat
  col : Nat
deriving DecidableEq, Repr

/-- The zero value of `token` (content of the not-yet-written lookahead
array slots). -/
def zeroToken : token := { typ := tokenType.tokenEOF, text := "", line := 0, col := 0 }

/-- The dedicated end-of-input token emitted by the lexer at exhaustion
(spec section 6, lexer contract). -/
def eofToken : token := { typ := tokenType.tokenEOF, text := "", line := 0, col := 0 }

/-- `nextToken` of the lexer: yields the next pending token, or the
dedicated end-of-input token once the stream is exhausted
(spec section 6, lexer contract). -/
def nextToken : List token → token × List token
  | [] => (eofToken, [])
  | t :: ts => (t, ts)

/-- RDF terms. Modelled from the spec (section 3, Term): a closed variant
over IRI, blank node and literal (lexical form, optional datatype IRI,
optional language tag). -/
inductive Term where
  | IRI : String → Term
  | Blank : String → Term
  | Literal : String → Option String → Option String → Term
deriving DecidableEq, Repr

/-- An RDF quad: subject, predicate, object plus the named-graph context
(spec section 3, Quad). -/
structure Quad where
  Subj : Term
  Pred : Term
  Obj : Term
  Ctx : Term
deriving DecidableEq, Repr

/-- The zero value of `Quad`, returned alongside an error or EOF signal
(Go's named return value before assignment). -/
def zeroQuad : Quad := { Subj := Term.IRI "", Pred := Term.IRI "", Obj := Term.IRI "", Ctx := Term.IRI "" }

/-- Serialization formats (spec section 3, Format: closed enumeration). -/
inductive Format where
  | FormatNT : Format
  | FormatNQ : Format
  | FormatTTL : Format
  | FormatRDFXML : Format
deriving DecidableEq, Repr

/-- Errors returned by `Decode`: `io.EOF` (end of stream, terminal
success) or a parse fault carrying its message. -/
inductive Err where
  | eof : Err
  | parseErr : String → Err
deriving DecidableEq, Repr

/-- A Go panic value as observed by `QuadDecoder.recover`: either a
`runtime.Error` (engine invariant violation) or an ordinary `error` value
(as raised by `errorf` for input-driven faults). -/
inductive PanicVal where
  | runtimeErr : String → PanicVal
  | errVal : String → PanicVal
deriving DecidableEq, Repr

/-- The `QuadDecoder` struct of `decoder.go`: lexer, format, default
graph, the 3-token lookahead array and `peekCount`. -/
structure QuadDecoder where
  l : List token
  format : Format
  DefaultGraph : Term
  tokens : Fin 3 → token
  peekCount : Nat

/-- Read slot `i` of the 3-token lookahead array. An out-of-range index
would be a runtime bounds panic in Go; it is unreachable under the
decoder's `peekCount` discipline, and the total model returns
`zeroToken` there. -/
def readTok (f : Fin 3 → token) (i : Nat) : token :=
  if h : i < 3 then f ⟨i, h⟩ else zeroToken

/-- Write slot `i` of the 3-token lookahead array. -/
def writeTok (f : Fin 3 → token) (i : Nat) (t : token) : Fin 3 → token :=
  fun j => if (j : Nat) = i then t else f j

/-- `NewQuadDecoder` (`decoder.go`): builds a decoder over the given
reader in the given serialization format. Note it performs no check on
the format. The lookahead array starts at its zero value. -/
def NewQuadDecoder (r : List token) (f : Format) : QuadDecoder :=
  { l := r
    format := f
    DefaultGraph := Term.Blank "_:defaultGraph"
    tokens := fun _ => zeroToken
    peekCount := 0 }

/-- `QuadDecoder.next` (`decoder.go`): returns the next token, consuming
it; pulls from the lexer only when no token is buffered. -/
def QuadDecoder.next (d : QuadDecoder) : token × QuadDecoder :=
  let d1 :=
    if d.peekCount > 0 then
      { d with peekCount := d.peekCount - 1 }
    else
      { d with l := (nextToken d.l).2, tokens := writeTok d.tokens 0 (nextToken d.l).1 }
  (readTok d1.tokens d1.peekCount, d1)

/-- `QuadDecoder.peek` (`decoder.go`): returns but does not consume the
next token. -/
def QuadDecoder.peek (d : QuadDecoder) : token × QuadDecoder :=
  if d.peekCount > 0 then
    (readTok d.tokens (d.peekCount - 1), d)
  else
    let d1 := { d with peekCount := 1, l := (nextToken d.l).2, tokens := writeTok d.tokens 0 (nextToken d.l).1 }
    (readTok d1.tokens 0, d1)

/-- Display name of a token kind, as used by the `%v` verb in
`unexpected`. Modelled from the spec: the token kind's printed form comes
from the lexer, which is out of the given source. -/
def tokenTypeStr : tokenType → String
  | tokenType.tokenEOF => "EOF"
  | tokenType.tokenEOL => "EOL"
  | tokenType.tokenError => "Error"
  | tokenType.tokenIRIAbs => "IRI (absolute)"
  | tokenType.tokenBNode => "blank node"
  | tokenType.tokenLiteral => "Literal"
  | tokenType.tokenLang => "language tag"
  | tokenType.tokenDataType => "datatype IRI"
  | tokenType.tokenDot => "."

/-- The `"%d:%d"` position part shared by both fault-message formats of
`decoder.go`: the offending token's line and column. -/
def lineColPre (t : token) : String :=
  toString t.line ++ (":" ++ toString t.col)

/-- The message built by `expect1As`/`expectAs` when the offending token
is a lexical-error token: format `"%d:%d: syntax error: %s"` applied to
the token's line, column and raw text (`decoder.go`). -/
def synErrMsg (t : token) : String :=
  lineColPre t ++ (": syntax error: " ++ t.text)

/-- The message built by `QuadDecoder.unexpected`: format
`"%d:%d unexpected %v as %s"` applied to the token's line, column, kind
and the parsing context (`decoder.go`). -/
def unexpectedMsg (t : token) (context : String) : String :=
  lineColPre t ++ (" unexpected " ++ (tokenTypeStr t.typ ++ (" as " ++ context)))

/-- `QuadDecoder.errorf` (`decoder.go`): formats the error and terminates
parsing by panicking with an ordinary (non-runtime) `error` value. -/
def errorf (msg : String) : PanicVal := PanicVal.errVal msg

/-- `QuadDecoder.unexpected` (`decoder.go`): complains about the given
token and terminates parsing via `errorf`. -/
def unexpectedPanic (t : token) (context : String) : PanicVal :=
  errorf (unexpectedMsg t context)

/-- `QuadDecoder.expect1As` (`decoder.go`): consumes the next token and
guarantees it has the expected type; on mismatch it panics via `errorf`
(for a lexical-error token) or `unexpected`. -/
def expect1As (d : QuadDecoder) (context : String) (expected : tokenType) :
    Except PanicVal token × QuadDecoder :=
  let t := (d.next).1
  let d1 := (d.next).2
  if t.typ ≠ expected then
    if t.typ = tokenType.tokenError then
      (Except.error (errorf (synErrMsg t)), d1)
    else
      (Except.error (unexpectedPanic t context), d1)
  else
    (Except.ok t, d1)

/-- `QuadDecoder.expectAs` (`decoder.go`): consumes the next token and
guarantees it has one of the expected types; on mismatch it panics via
`errorf` (for a lexical-error token) or `unexpected`. -/
def expectAs (d : QuadDecoder) (context : String) (expected : List tokenType) :
    Except PanicVal token × QuadDecoder :=
  let t := (d.next).1
  let d1 := (d.next).2
  if expected.contains t.typ then
    (Except.ok t, d1)
  else if t.typ = tokenType.tokenError then
    (Except.error (errorf (synErrMsg t)), d1)
  else
    (Except.error (unexpectedPanic t context), d1)

/-- Outcome of running a parse body up to its exit point: a normal return
of `(Quad, error)` or an in-flight panic. -/
inductive BodyOutcome where
  | ret : Quad → Option Err → BodyOutcome
  | panicked : PanicVal → BodyOutcome
deriving DecidableEq, Repr

/-- What the caller of `Decode` observes once the deferred
`QuadDecoder.recover` has run: either a normal `(Quad, error)` return or
a still-propagating panic. -/
inductive DecodeBoundary where
  | returns : Quad → Option Err → DecodeBoundary
  | propagates : PanicVal → DecodeBoundary
deriving DecidableEq, Repr

/-- `QuadDecoder.recover` (`decoder.go`) applied at the `Decode`
boundary: a normal return passes through; a `runtime.Error` panic is
re-raised (never converted); any other panic value is bound to the error
return, the quad result staying at its zero value. -/
def recoverAtBoundary : BodyOutcome → DecodeBoundary
  | BodyOutcome.ret q e => DecodeBoundary.returns q e
  | BodyOutcome.panicked (PanicVal.runtimeErr s) => DecodeBoundary.propagates (PanicVal.runtimeErr s)
  | BodyOutcome.panicked (PanicVal.errVal m) => DecodeBoundary.returns zeroQuad (some (Err.parseErr m))

/-- Bounded unfolding of the leading-whitespace loop
`while peek().typ == tokenEOL do next()`. -/
def skipEOLFuel : Nat → QuadDecoder → QuadDecoder
  | 0, d => d
  | n + 1, d =>
    let p := d.peek
    if p.1.typ = tokenType.tokenEOL then skipEOLFuel n (p.2.next).2 else p.2

/-- Modelled from the spec (section 4.2, step 1): skip leading
end-of-line tokens. Each iteration of the loop consumes one pending
token, so `d.l.length + d.peekCount + 1` rounds of fuel always cover the
whole loop. -/
def skipEOL (d : QuadDecoder) : QuadDecoder :=
  skipEOLFuel (d.l.length + d.peekCount + 1) d

/-- Strip one leading and one trailing character of a lexeme: the angle
brackets of an IRI reference, or the quotes of a literal (spec section 8
examples: lexeme to term content). -/
def stripEnds (s : String) : String :=
  ((s.toList.drop 1).dropLast).asString

/-- Modelled from the spec (section 4.2 steps 2-3): turn a subject or
graph-position token (IRI-reference or blank-node label) into a term.
A blank-node term keeps the raw label (spec section 3: Token.text is the
raw lexeme); an IRI term strips the surrounding angle brackets. -/
def termFromNodeTok (t : token) : Term :=
  if t.typ = tokenType.tokenBNode then Term.Blank t.text else Term.IRI (stripEnds t.text)

/-- Modelled from the spec (section 4.2 step 4): build the object term
from its token, consuming an optional trailing language-tag or
datatype-IRI token after a literal (mutually exclusive). -/
def parseObjectTail (t : token) (d : QuadDecoder) : Term × QuadDecoder :=
  if t.typ = tokenType.tokenIRIAbs then
    (Term.IRI (stripEnds t.text), d)
  else if t.typ = tokenType.tokenBNode then
    (Term.Blank t.text, d)
  else
    let nx := (d.peek).1
    let d1 := (d.peek).2
    if nx.typ = tokenType.tokenLang then
      (Term.Literal (stripEnds t.text) none (some ((d1.next).1.text)), (d1.next).2)
    else if nx.typ = tokenType.tokenDataType then
      (Term.Literal (stripEnds t.text) (some ((d1.next).1.text)) none, (d1.next).2)
    else
      (Term.Literal (stripEnds t.text) none none, d1)

/-- Modelled from the spec (section 4.2 step 5): optionally parse a
graph-label term (IRI-reference or blank-node label); if absent, the
quad's context is the decoder's default graph sentinel. -/
def parseGraphLabel (d : QuadDecoder) : Term × QuadDecoder :=
  let nx := (d.peek).1
  let d1 := (d.peek).2
  if nx.typ = tokenType.tokenIRIAbs ∨ nx.typ = tokenType.tokenBNode then
    (termFromNodeTok ((d1.next).1), (d1.next).2)
  else
    (d.DefaultGraph, d1)

/-- Modelled from the spec (section 4.2 steps 2-7): parse one N-Quads
statement after the end-of-input check — subject, predicate, object with
optional literal suffix, optional graph label, terminating dot — using
the token-expectation checks of `decoder.go`; any grammar violation is a
panic raised by `errorf`/`unexpected`. -/
def parseNQTerms (d : QuadDecoder) : Except PanicVal Quad × QuadDecoder :=
  match expectAs d "subject" [tokenType.tokenIRIAbs, tokenType.tokenBNode] with
  | (Except.error p, d1) => (Except.error p, d1)
  | (Except.ok ts, d1) =>
    match expect1As d1 "predicate" tokenType.tokenIRIAbs with
    | (Except.error p, d2) => (Except.error p, d2)
    | (Except.ok tp, d2) =>
      match expectAs d2 "object" [tokenType.tokenIRIAbs, tokenType.tokenBNode, tokenType.tokenLiteral] with
      | (Except.error p, d3) => (Except.error p, d3)
      | (Except.ok tob, d3) =>
        let obj := (parseObjectTail tob d3).1
        let d4 := (parseObjectTail tob d3).2
        let ctx := (parseGraphLabel d4).1
        let d5 := (parseGraphLabel d4).2
        match expect1As d5 "dot (.)" tokenType.tokenDot with
        | (Except.error p, d6) => (Except.error p, d6)
        | (Except.ok _, d6) =>
          (Except.ok { Subj := termFromNodeTok ts, Pred := Term.IRI (stripEnds tp.text), Obj := obj, Ctx := ctx }, d6)

/-- Modelled from the spec (sections 4.2 and 4.4): `parseNQ` — skip
leading end-of-line tokens; an end-of-input token signals EndOfStream
(`io.EOF`); otherwise parse one statement; every exit passes through the
deferred `QuadDecoder.recover` exactly once. -/
def parseNQ (d : QuadDecoder) : DecodeBoundary × QuadDecoder :=
  let d0 := skipEOL d
  let pk := d0.peek
  if pk.1.typ = tokenType.tokenEOF then
    (recoverAtBoundary (BodyOutcome.ret zeroQuad (some Err.eof)), pk.2)
  else
    match parseNQTerms pk.2 with
    | (Except.ok q, d2) => (recoverAtBoundary (BodyOutcome.ret q none), d2)
    | (Except.error p, d2) => (recoverAtBoundary (BodyOutcome.panicked p), d2)

/-- `QuadDecoder.Decode` (`decoder.go`): returns the next valid quad, or
an error. -/
def Decode (d : QuadDecoder) : DecodeBoundary × QuadDecoder := parseNQ d

/-- Result of a `DecodeAll` call: the `([]Quad, error)` return pair, a
panic propagating out of a `Decode` call, or fuel exhaustion of the
bounded loop model. -/
inductive DecodeAllOut where
  | res : List Quad → Option Err → DecodeAllOut
  | prop : PanicVal → DecodeAllOut
  | outOfFuel : DecodeAllOut
deriving DecidableEq, Repr

/-- The loop of `QuadDecoder.DecodeAll` (`decoder.go`), generic in the
`Decode` step it repeatedly invokes: stop with the accumulated quads on
`io.EOF`; return `(nil, err)` on any other error, discarding the
accumulator; otherwise append the quad and continue. `fuel` bounds the
number of loop iterations examined. -/
def DecodeAllLoop {σ : Type} (step : σ → DecodeBoundary × σ) :
    Nat → σ → List Quad → DecodeAllOut × σ
  | 0, s, _ => (DecodeAllOut.outOfFuel, s)
  | n + 1, s, acc =>
    match step s with
    | (DecodeBoundary.propagates p, s1) => (DecodeAllOut.prop p, s1)
    | (DecodeBoundary.returns _ (some Err.eof), s1) => (DecodeAllOut.res acc none, s1)
    | (DecodeBoundary.returns _ (some (Err.parseErr m)), s1) =>
      (DecodeAllOut.res [] (some (Err.parseErr m)), s1)
    | (DecodeBoundary.returns q none, s1) => DecodeAllLoop step n s1 (acc ++ [q])

/-- `QuadDecoder.DecodeAll` (`decoder.go`): decode and return all quads
from the source, or an error. -/
def DecodeAll (fuel : Nat) (d : QuadDecoder) : DecodeAllOut × QuadDecoder :=
  DecodeAllLoop Decode fuel d []

/-- The concrete triple decoders selected by `NewTripleDecoder`.
Modelled from the spec (section 2): the N-Triples, Turtle and RDF/XML
parsers exist but are outside the given source. -/
inductive TripleDecoderImpl where
  | ntDecoder : TripleDecoderImpl
  | rdfxmlDecoder : TripleDecoderImpl
  | ttlDecoder : TripleDecoderImpl
deriving DecidableEq, Repr

/-- `NewTripleDecoder` (`decoder.go`): selects the concrete parser by
format; the `default` branch panics ("Decoder for serialization format
%s not implemented"), modelled as `none`. -/
def NewTripleDecoder (f : Format) : Option TripleDecoderImpl :=
  match f with
  | Format.FormatNT => some TripleDecoderImpl.ntDecoder
  | Format.FormatRDFXML => some TripleDecoderImpl.rdfxmlDecoder
  | Format.FormatTTL => some TripleDecoderImpl.ttlDecoder
  | _ => none

/-- The formats with an implemented triple parser (`decoder.go`
doc comments and spec section 2: N-Triples, Turtle, RDF/XML). -/
def tripleParserImplemented : Format → Bool
  | Format.FormatNT => true
  | Format.FormatTTL => true
  | Format.FormatRDFXML => true
  | _ => false

/-- The formats with an implemented quad parser (`decoder.go` doc
comment: "QuadDecoder parses RDF quads in one of the following formats:
N-Quads."). -/
def quadParserImplemented : Format → Bool
  | Format.FormatNQ => true
  | _ => false

/-- An operation on the token lookahead buffer: one `peek` or one `next`
call. -/
inductive BufOp where
  | peekOp : BufOp
  | nextOp : BufOp
deriving DecidableEq, Repr

/-- Apply one buffer operation to the decoder state, discarding the
returned token. -/
def applyOp (d : QuadDecoder) : BufOp → QuadDecoder
  | BufOp.peekOp => (d.peek).2
  | BufOp.nextOp => (d.next).2

/-- Apply a sequence of buffer operations from left to right. -/
def applyOps (d : QuadDecoder) : List BufOp → QuadDecoder
  | [] => d
  | op :: ops => applyOps (applyOp d op) ops

/-- The trace relation of successive `Decode`-style calls: from state `s`,
`qs.length` consecutive calls to `step` each return a quad with a nil
error, reaching state `s2` and producing the quads `qs` in arrival
order. -/
inductive YieldsOks {σ : Type} (step : σ → DecodeBoundary × σ) : σ → List Quad → σ → Prop where
  | nil : ∀ s, YieldsOks step s [] s
  | cons : ∀ (s : σ) (q : Quad) (s1 : σ) (qs : List Quad) (s2 : σ),
      step s = (DecodeBoundary.returns q none, s1) →
      YieldsOks step s1 qs s2 → YieldsOks step s (q :: qs) s2

theorem decodeAllLoop_fault {σ : Type} (step : σ → DecodeBoundary × σ)
    {s : σ} {qs : List Quad} {s1 : σ}
    (hy : YieldsOks step s qs s1) :
    ∀ (q : Quad) (m : String) (s2 : σ),
      step s1 = (DecodeBoundary.returns q (some (Err.parseErr m)), s2) →
      ∀ fuel : Nat, qs.length < fuel → ∀ acc : List Quad,
      DecodeAllLoop step fuel s acc = (DecodeAllOut.res [] (some (Err.parseErr m)), s2) := by
  induction hy with
  | nil s =>
    intro q m s2 hf fuel hfuel acc
    match fuel, hfuel with
    | n + 1, _ => simp [DecodeAllLoop, hf]
  | cons s q' s1' qs' s2' hstep _ ih =>
    intro q m s2 hf fuel hfuel acc
    match fuel, hfuel with
    | n + 1, hfuel =>
      have hn : qs'.length < n := by simpa using hfuel
      simp only [DecodeAllLoop, hstep]
      exact ih q m s2 hf n hn (acc ++ [q'])

theorem decodeAllLoop_success {σ : Type} (step : σ → DecodeBoundary × σ)
    {s : σ} {qs : List Quad} {s1 : σ}
    (hy : YieldsOks step s qs s1) :
    ∀ (q : Quad) (s2 : σ),
      step s1 = (DecodeBoundary.returns q (some Err.eof), s2) →
      ∀ fuel : Nat, qs.length < fuel → ∀ acc : List Quad,
      DecodeAllLoop step fuel s acc = (DecodeAllOut.res (acc ++ qs) none, s2) := by
  induction hy with
  | nil s =>
    intro q s2 he fuel hfuel acc
    match fuel, hfuel with
    | n + 1, _ => simp [DecodeAllLoop, he]
  | cons s q' s1' qs' s2' hstep _ ih =>
    intro q s2 he fuel hfuel acc
    match fuel, hfuel with
    | n + 1, hfuel =>
      have hn : qs'.length < n := by simpa using hfuel
      simp only [DecodeAllLoop, hstep]
      rw [ih q s2 he n hn (acc ++ [q'])]
      simp

theorem applyOp_peekCount_le_one (d : QuadDecoder) (op : BufOp)
    (h : d.peekCount ≤ 1) : (applyOp d op).peekCount ≤ 1 := by
  cases op with
  | peekOp =>
    simp only [applyOp, QuadDecoder.peek]
    split
    · exact h
    · exact Nat.le_refl 1
  | nextOp =>
    simp only [applyOp, QuadDecoder.next]
    split
    · exact Nat.le_trans (Nat.sub_le _ _) h
    · exact h

theorem applyOps_peekCount_le_one (d : QuadDecoder) (ops : List BufOp)
    (h : d.peekCount ≤ 1) : (applyOps d ops).peekCount ≤ 1 := by
  induction ops generalizing d with
  | nil => simpa [applyOps] using h
  | cons op ops ih => exact ih _ (applyOp_peekCount_le_one d op h)

theorem applyOp_tokens_ne_zero (d : QuadDecoder) (op : BufOp) (j : Fin 3) (hj : j ≠ 0) :
    (applyOp d op).tokens j = d.tokens j := by
  have hval : (j : Nat) ≠ 0 := by
    intro hc
    exact hj (Fin.ext hc)
  cases op with
  | peekOp =>
    simp only [applyOp, QuadDecoder.peek]
    split
    · rfl
    · simp [writeTok, hval]
  | nextOp =>
    simp only [applyOp, QuadDecoder.next]
    split
    · rfl
    · simp [writeTok, hval]

theorem applyOps_tokens_ne_zero (d : QuadDecoder) (ops : List BufOp) (j : Fin 3) (hj : j ≠ 0) :
    (applyOps d ops).tokens j = d.tokens j := by
  induction ops generalizing d with
  | nil => rfl
  | cons op ops ih => rw [applyOps, ih (applyOp d op), applyOp_tokens_ne_zero d op j hj]

theorem skipEOLFuel_not_eol (n : Nat) (d : QuadDecoder)
    (h : ((d.peek).1).typ ≠ tokenType.tokenEOL) :
    skipEOLFuel (n + 1) d = (d.peek).2 := by
  simp [skipEOLFuel, h]

theorem skipEOL_not_eol (d : QuadDecoder)
    (h : ((d.peek).1).typ ≠ tokenType.tokenEOL) :
    skipEOL d = (d.peek).2 := by
  rw [skipEOL]
  exact skipEOLFuel_not_eol _ d h

theorem skipEOLFuel_all_eol : ∀ (n : Nat) (d : QuadDecoder), d.peekCount = 0 →
    (∀ t ∈ d.l, t.typ = tokenType.tokenEOL) → d.l.length < n →
    (((skipEOLFuel n d).peek).1).typ = tokenType.tokenEOF := by
  intro n
  induction n with
  | zero =>
    intro d _ _ hlen
    omega
  | succ m ih =>
    intro d hpc hall hlen
    cases hL : d.l with
    | nil =>
      rw [skipEOLFuel]
      simp [QuadDecoder.peek, hpc, hL, nextToken, readTok, writeTok, eofToken]
    | cons t ts =>
      have ht : t.typ = tokenType.tokenEOL := hall t (by rw [hL]; exact List.mem_cons_self t ts)
      have hrec := ih { d with l := ts, peekCount := 0, tokens := writeTok d.tokens 0 t }
        rfl
        (by
          intro u hu
          exact hall u (by rw [hL]; exact List.mem_cons_of_mem t hu))
        (by
          rw [hL] at hlen
          simpa using Nat.lt_of_succ_lt_succ hlen)
      rw [skipEOLFuel]
      simp only [QuadDecoder.peek, QuadDecoder.next, hpc, hL, nextToken, readTok, writeTok]
      simpa [QuadDecoder.peek, QuadDecoder.next, hpc, hL, nextToken, readTok, writeTok, ht] using hrec

theorem next_DefaultGraph (d : QuadDecoder) : ((d.next).2).DefaultGraph = d.DefaultGraph := by
  simp only [QuadDecoder.next]
  split <;> rfl

theorem peek_DefaultGraph (d : QuadDecoder) : ((d.peek).2).DefaultGraph = d.DefaultGraph := by
  simp only [QuadDecoder.peek]
  split <;> rfl

theorem skipEOLFuel_DefaultGraph : ∀ (n : Nat) (d : QuadDecoder),
    (skipEOLFuel n d).DefaultGraph = d.DefaultGraph := by
  intro n
  induction n with
  | zero => intro d; rfl
  | succ m ih =>
    intro d
    rw [skipEOLFuel]
    split
    · rw [ih, next_DefaultGraph, peek_DefaultGraph]
    · exact peek_DefaultGraph d

theorem skipEOL_DefaultGraph (d : QuadDecoder) : (skipEOL d).DefaultGraph = d.DefaultGraph := by
  rw [skipEOL]
  exact skipEOLFuel_DefaultGraph _ d

theorem expect1As_DefaultGraph (d : QuadDecoder) (c : String) (e : tokenType) :
    ((expect1As d c e).2).DefaultGraph = d.DefaultGraph := by
  simp only [expect1As]
  split_ifs <;> exact next_DefaultGraph d

theorem expectAs_DefaultGraph (d : QuadDecoder) (c : String) (es : List tokenType) :
    ((expectAs d c es).2).DefaultGraph = d.DefaultGraph := by
  simp only [expectAs]
  split_ifs <;> exact next_DefaultGraph d

theorem parseObjectTail_DefaultGraph (t : token) (d : QuadDecoder) :
    ((parseObjectTail t d).2).DefaultGraph = d.DefaultGraph := by
  simp only [parseObjectTail]
  split_ifs
  · rfl
  · rfl
  · rw [next_DefaultGraph, peek_DefaultGraph]
  · rw [next_DefaultGraph, peek_DefaultGraph]
  · exact peek_DefaultGraph d

theorem parseGraphLabel_DefaultGraph (d : QuadDecoder) :
    ((parseGraphLabel d).2).DefaultGraph = d.DefaultGraph := by
  simp only [parseGraphLabel]
  split_ifs
  · rw [next_DefaultGraph, peek_DefaultGraph]
  · exact peek_DefaultGraph d

theorem parseNQTerms_DefaultGraph (d : QuadDecoder) :
    ((parseNQTerms d).2).DefaultGraph = d.DefaultGraph := by
  rw [parseNQTerms]
  split
  · rename_i p d1 hs
    have h := expectAs_DefaultGraph d "subject" [tokenType.tokenIRIAbs, tokenType.tokenBNode]
    rw [hs] at h
    simpa using h
  · rename_i ts d1 hs
    have hd1 : d1.DefaultGraph = d.DefaultGraph := by
      have h := expectAs_DefaultGraph d "subject" [tokenType.tokenIRIAbs, tokenType.tokenBNode]
      rw [hs] at h
      exact h
    split
    · rename_i p d2 hp
      have h := expect1As_DefaultGraph d1 "predicate" tokenType.tokenIRIAbs
      rw [hp] at h
      simp only []
      rw [h]
      exact hd1
    · rename_i tp d2 hp
      have hd2 : d2.DefaultGraph = d.DefaultGraph := by
        have h := expect1As_DefaultGraph d1 "predicate" tokenType.tokenIRIAbs
        rw [hp] at h
        rw [h]
        exact hd1
      split
      · rename_i p d3 ho
        have h := expectAs_DefaultGraph d2 "object" [tokenType.tokenIRIAbs, tokenType.tokenBNode, tokenType.tokenLiteral]
        rw [ho] at h
        simp only []
        rw [h]
        exact hd2
      · rename_i tob d3 ho
        have hd3 : d3.DefaultGraph = d.DefaultGraph := by
          have h := expectAs_DefaultGraph d2 "object" [tokenType.tokenIRIAbs, tokenType.tokenBNode, tokenType.tokenLiteral]
          rw [ho] at h
          rw [h]
          exact hd2
        simp only []
        split
        · rename_i p d6 hx
          have h := expect1As_DefaultGraph ((parseGraphLabel ((parseObjectTail tob d3).2)).2) "dot (.)" tokenType.tokenDot
          rw [hx] at h
          simp only []
          rw [h, parseGraphLabel_DefaultGraph, parseObjectTail_DefaultGraph]
          exact hd3
        · rename_i tdot d6 hx
          have h := expect1As_DefaultGraph ((parseGraphLabel ((parseObjectTail tob d3).2)).2) "dot (.)" tokenType.tokenDot
          rw [hx] at h
          simp only []
          rw [h, parseGraphLabel_DefaultGraph, parseObjectTail_DefaultGraph]
          exact hd3

/-- A convenience constructor for concrete tokens used in witnesses. -/
def mkTok (ty : tokenType) (s : String) (ln c : Nat) : token :=
  { typ := ty, text := s, line := ln, col := c }

theorem Decode_DefaultGraph (d : QuadDecoder) : ((Decode d).2).DefaultGraph = d.DefaultGraph := by
  rw [Decode]
  simp only [parseNQ]
  split
  · rw [peek_DefaultGraph, skipEOL_DefaultGraph]
  · rcases hq : parseNQTerms (((skipEOL d).peek).2) with ⟨rq, d2⟩
    have hd2 : d2.DefaultGraph = d.DefaultGraph := by
      have h := parseNQTerms_DefaultGraph (((skipEOL d).peek).2)
      rw [hq] at h
      rw [h, peek_DefaultGraph, skipEOL_DefaultGraph]
    cases rq with
    | ok q => simpa [hq] using hd2
    | error p => simpa [hq] using hd2

/-- C4: in every decoder state, `peek` returns the next token without
consuming it — repeated `peek` calls with no intervening `next` return the
same token and leave the state unchanged, the `next` call after a `peek`
returns exactly the token that `peek` returned, and `next` pulls a fresh
token from the lexer only when the buffer is empty (when a token is
buffered, the lexer is untouched; when none is, exactly one token is
pulled). -/
theorem C4_peek_next_contract :
    (∀ d : QuadDecoder, ((d.peek).2.peek).1 = (d.peek).1 ∧ ((d.peek).2.peek).2 = (d.peek).2) ∧
    (∀ d : QuadDecoder, (((d.peek).2).next).1 = (d.peek).1) ∧
    (∀ d : QuadDecoder, 0 < d.peekCount → (d.next).2.l = d.l) ∧
    (∀ d : QuadDecoder, d.peekCount = 0 →
        (d.next).1 = (nextToken d.l).1 ∧ (d.next).2.l = (nextToken d.l).2) := by
  refine ⟨?_, ?_, ?_, ?_⟩
  · intro d
    rcases Nat.eq_zero_or_pos d.peekCount with h | h
    · constructor <;> simp [QuadDecoder.peek, h, readTok, writeTok]
    · constructor <;> simp [QuadDecoder.peek, Nat.pos_iff_ne_zero.mp h, h]
  · intro d
    rcases Nat.eq_zero_or_pos d.peekCount with h | h
    · simp [QuadDecoder.peek, QuadDecoder.next, h, readTok, writeTok]
    · simp [QuadDecoder.peek, QuadDecoder.next, h]
  · intro d h
    simp [QuadDecoder.next, h]
  · intro d h
    constructor <;> simp [QuadDecoder.next, h, readTok, writeTok]

/-- Witness for C4: the contract evaluated at a concrete one-token
decoder, in a buffered state and in an empty-buffer state. -/
theorem C4_witness :
    (0 < (((NewQuadDecoder [mkTok tokenType.tokenDot "." 1 1] Format.FormatNQ).peek).2).peekCount ∧
      ((((NewQuadDecoder [mkTok tokenType.tokenDot "." 1 1] Format.FormatNQ).peek).2).next).2.l =
        (((NewQuadDecoder [mkTok tokenType.tokenDot "." 1 1] Format.FormatNQ).peek).2).l) ∧
    (((NewQuadDecoder [mkTok tokenType.tokenDot "." 1 1] Format.FormatNQ).next).1 =
        (nextToken (NewQuadDecoder [mkTok tokenType.tokenDot "." 1 1] Format.FormatNQ).l).1 ∧
      ((NewQuadDecoder [mkTok tokenType.tokenDot "." 1 1] Format.FormatNQ).next).2.l =
        (nextToken (NewQuadDecoder [mkTok tokenType.tokenDot "." 1 1] Format.FormatNQ).l).2) :=
  ⟨⟨by decide, C4_peek_next_contract.2.2.1 _ (by decide)⟩,
   ⟨(C4_peek_next_contract.2.2.2 _ rfl).1, (C4_peek_next_contract.2.2.2 _ rfl).2⟩⟩

/-- C10: from the initial decoder state, every sequence of `peek` and
`next` calls keeps `peekCount` between 0 and 1, and never writes any
lookahead-array slot other than slot 0 (slots 1 and 2 keep their initial
zero value), so at most one token is ever buffered ahead of the parse
cursor. -/
theorem C10_buffer_bookkeeping_invariant :
    ∀ (r : List token) (f : Format) (ops : List BufOp),
      (applyOps (NewQuadDecoder r f) ops).peekCount ≤ 1 ∧
      (∀ j : Fin 3, j ≠ 0 → (applyOps (NewQuadDecoder r f) ops).tokens j = zeroToken) := by
  intro r f ops
  constructor
  · exact applyOps_peekCount_le_one _ ops (Nat.zero_le 1)
  · intro j hj
    rw [applyOps_tokens_ne_zero _ ops j hj]
    exact rfl

/-- Witness for C10: the invariant evaluated after three consecutive
`peek` calls on a concrete decoder, checking slot 1 of the array. -/
theorem C10_witness :
    (applyOps (NewQuadDecoder [] Format.FormatNQ) [BufOp.peekOp, BufOp.peekOp, BufOp.peekOp]).peekCount ≤ 1 ∧
    (applyOps (NewQuadDecoder [] Format.FormatNQ) [BufOp.peekOp, BufOp.peekOp, BufOp.peekOp]).tokens 1 = zeroToken :=
  ⟨(C10_buffer_bookkeeping_invariant [] Format.FormatNQ [BufOp.peekOp, BufOp.peekOp, BufOp.peekOp]).1,
   (C10_buffer_bookkeeping_invariant [] Format.FormatNQ [BufOp.peekOp, BufOp.peekOp, BufOp.peekOp]).2 1 (by decide)⟩

/-- C5 is false of the code: no reachable sequence of buffer operations
ever buffers 3 tokens ahead of the parse cursor — `peek` writes only slot
0 and never raises `peekCount` above 1, so a state with `peekCount ≥ 3`
is unreachable. -/
theorem C5_counterexample :
    ¬ ∃ (r : List token) (f : Format) (ops : List BufOp),
        3 ≤ (applyOps (NewQuadDecoder r f) ops).peekCount := by
  rintro ⟨r, f, ops, h3⟩
  have h := applyOps_peekCount_le_one (NewQuadDecoder r f) ops (Nat.zero_le 1)
  omega

/-- C5 (amended): the lookahead array has 3 slots, but the implemented
buffer operations store at most one token of lookahead — in every
reachable state `peekCount ≤ 1` — and a buffered token is subsequently
returned by `next` without consulting the lexer. -/
theorem C5_amended_single_token_lookahead :
    (∀ (r : List token) (f : Format) (ops : List BufOp),
        (applyOps (NewQuadDecoder r f) ops).peekCount ≤ 1) ∧
    (∀ d : QuadDecoder, 0 < d.peekCount →
        (d.next).1 = readTok d.tokens (d.peekCount - 1) ∧ (d.next).2.l = d.l) := by
  constructor
  · intro r f ops
    exact applyOps_peekCount_le_one _ ops (Nat.zero_le 1)
  · intro d h
    constructor <;> simp [QuadDecoder.next, h]

/-- Witness for C5 (amended): evaluated after a `peek` on a concrete
decoder. -/
theorem C5_witness :
    (applyOps (NewQuadDecoder [] Format.FormatTTL) [BufOp.peekOp, BufOp.nextOp]).peekCount ≤ 1 ∧
    (((NewQuadDecoder [mkTok tokenType.tokenEOL "" 1 1] Format.FormatTTL).peek).2.next).2.l =
      (((NewQuadDecoder [mkTok tokenType.tokenEOL "" 1 1] Format.FormatTTL).peek).2).l :=
  ⟨C5_amended_single_token_lookahead.1 [] Format.FormatTTL [BufOp.peekOp, BufOp.nextOp],
   (C5_amended_single_token_lookahead.2 _ (by decide)).2⟩

/-- C6 is false of the code for `NewQuadDecoder`: the quad-decoder
constructor performs no format check at all — requesting a `QuadDecoder`
for RDF/XML, a format with no implemented quad parser, succeeds and
returns a fully constructed decoder instead of raising a configuration
fault. -/
theorem C6_counterexample :
    quadParserImplemented Format.FormatRDFXML = false ∧
    (NewQuadDecoder [] Format.FormatRDFXML).format = Format.FormatRDFXML ∧
    (NewQuadDecoder [] Format.FormatRDFXML).DefaultGraph = Term.Blank "_:defaultGraph" ∧
    (NewQuadDecoder [] Format.FormatRDFXML).peekCount = 0 :=
  ⟨rfl, rfl, rfl, rfl⟩

/-- C6 (amended): `NewTripleDecoder` raises its configuration fault at
construction time exactly for the formats with no implemented triple
parser (all but N-Triples, Turtle, RDF/XML) and succeeds for implemented
ones; `NewQuadDecoder` checks nothing and constructs a decoder for every
format, even those without an implemented quad parser. -/
theorem C6_amended_construction_faults :
    (∀ f : Format, (NewTripleDecoder f).isSome = tripleParserImplemented f) ∧
    (∀ (r : List token) (f : Format),
        (NewQuadDecoder r f).l = r ∧ (NewQuadDecoder r f).format = f ∧
        (NewQuadDecoder r f).DefaultGraph = Term.Blank "_:defaultGraph" ∧
        (NewQuadDecoder r f).peekCount = 0) := by
  constructor
  · intro f
    cases f <;> rfl
  · intro r f
    exact ⟨rfl, rfl, rfl, rfl⟩

/-- C1: whenever a `Decode` call on the stream faults (after any number
of successful decodes), `DecodeAll` returns the nil quad sequence
together with that fault, discarding every quad decoded before it,
regardless of the position of the malformed statement. -/
theorem C1_decodeAll_fault_returns_nil (d : QuadDecoder) (qs : List Quad) (d1 : QuadDecoder)
    (hy : YieldsOks Decode d qs d1)
    (q : Quad) (m : String) (d2 : QuadDecoder)
    (hf : Decode d1 = (DecodeBoundary.returns q (some (Err.parseErr m)), d2))
    (fuel : Nat) (hfuel : qs.length < fuel) :
    DecodeAll fuel d = (DecodeAllOut.res [] (some (Err.parseErr m)), d2) :=
  decodeAllLoop_fault Decode hy q m d2 hf fuel hfuel []

/-- The token stream of the C1 witness: one well-formed statement, then a
malformed one (a bare dot in subject position). -/
def c1Toks : List token :=
  [mkTok tokenType.tokenIRIAbs "<http://a>" 1 1, mkTok tokenType.tokenIRIAbs "<http://b>" 1 12,
   mkTok tokenType.tokenIRIAbs "<http://c>" 1 23, mkTok tokenType.tokenDot "." 1 34,
   mkTok tokenType.tokenDot "." 2 1]

/-- Witness for C1: one well-formed statement followed by a malformed one;
`DecodeAll` discards the decoded quad and returns nil with the fault. -/
theorem C1_witness :
    ∃ d2 : QuadDecoder,
      DecodeAll 2 (NewQuadDecoder c1Toks Format.FormatNQ) =
        (DecodeAllOut.res [] (some (Err.parseErr "2:1 unexpected . as subject")), d2) := by
  refine ⟨_, C1_decodeAll_fault_returns_nil (NewQuadDecoder c1Toks Format.FormatNQ) _ _
    (YieldsOks.cons (NewQuadDecoder c1Toks Format.FormatNQ) _ _ _ _ rfl (YieldsOks.nil _))
    _ _ _ rfl 2 ?_⟩
  decide

/-- C2: when every `Decode` call succeeds until the end-of-stream signal,
`DecodeAll` returns exactly the quads produced by the successive `Decode`
calls, in arrival order, with a nil error. -/
theorem C2_decodeAll_returns_all_in_order (d : QuadDecoder) (qs : List Quad) (d1 : QuadDecoder)
    (hy : YieldsOks Decode d qs d1)
    (q : Quad) (d2 : QuadDecoder)
    (he : Decode d1 = (DecodeBoundary.returns q (some Err.eof), d2))
    (fuel : Nat) (hfuel : qs.length < fuel) :
    DecodeAll fuel d = (DecodeAllOut.res qs none, d2) := by
  have h := decodeAllLoop_success Decode hy q d2 he fuel hfuel []
  simpa [DecodeAll] using h

/-- The token stream of the C2 witness: two well-formed statements, the
second carrying an explicit graph label. -/
def c2Toks : List token :=
  [mkTok tokenType.tokenIRIAbs "<http://a>" 1 1, mkTok tokenType.tokenIRIAbs "<http://b>" 1 12,
   mkTok tokenType.tokenIRIAbs "<http://c>" 1 23, mkTok tokenType.tokenDot "." 1 34,
   mkTok tokenType.tokenIRIAbs "<http://a>" 2 1, mkTok tokenType.tokenIRIAbs "<http://b>" 2 12,
   mkTok tokenType.tokenLiteral "\"x\"" 2 23, mkTok tokenType.tokenIRIAbs "<http://g>" 2 27,
   mkTok tokenType.tokenDot "." 2 38]

/-- Witness for C2: two well-formed statements decode to exactly two
quads in input order. -/
theorem C2_witness :
    ∃ d2 : QuadDecoder,
      DecodeAll 3 (NewQuadDecoder c2Toks Format.FormatNQ) =
        (DecodeAllOut.res
          [{ Subj := Term.IRI "http://a", Pred := Term.IRI "http://b",
             Obj := Term.IRI "http://c", Ctx := Term.Blank "_:defaultGraph" },
           { Subj := Term.IRI "http://a", Pred := Term.IRI "http://b",
             Obj := Term.Literal "x" none none, Ctx := Term.IRI "http://g" }] none, d2) := by
  refine ⟨_, C2_decodeAll_returns_all_in_order (NewQuadDecoder c2Toks Format.FormatNQ) _ _
    (YieldsOks.cons (NewQuadDecoder c2Toks Format.FormatNQ) _ _ _ _ rfl
      (YieldsOks.cons ((Decode (NewQuadDecoder c2Toks Format.FormatNQ)).2) _ _ _ _ rfl
        (YieldsOks.nil _)))
    _ _ rfl 3 ?_⟩
  decide

/-- C3: grammar violations are raised by `errorf` as panics carrying an
ordinary error value; at the `Decode` boundary `recover` converts exactly
those into ordinary error results, while `runtime.Error` panics (engine
invariant violations) are re-raised and never converted; every
token-expectation failure is such an `errorf` panic, and every `Decode`
outcome passes through the recover boundary once. -/
theorem C3_panic_recover_discipline :
    (∀ m : String, recoverAtBoundary (BodyOutcome.panicked (errorf m)) =
        DecodeBoundary.returns zeroQuad (some (Err.parseErr m))) ∧
    (∀ s : String, recoverAtBoundary (BodyOutcome.panicked (PanicVal.runtimeErr s)) =
        DecodeBoundary.propagates (PanicVal.runtimeErr s)) ∧
    (∀ (d : QuadDecoder) (c : String) (e : tokenType) (p : PanicVal),
        (expect1As d c e).1 = Except.error p → ∃ m : String, p = errorf m) ∧
    (∀ (d : QuadDecoder) (c : String) (es : List tokenType) (p : PanicVal),
        (expectAs d c es).1 = Except.error p → ∃ m : String, p = errorf m) ∧
    (∀ d : QuadDecoder, ∃ (b : BodyOutcome) (d1 : QuadDecoder),
        Decode d = (recoverAtBoundary b, d1)) := by
  refine ⟨fun m => rfl, fun s => rfl, ?_, ?_, ?_⟩
  · intro d c e p h
    simp only [expect1As] at h
    split_ifs at h with h1 h2
    · simp at h
      exact ⟨_, h.symm⟩
    · simp at h
      exact ⟨_, h.symm⟩
  · intro d c es p h
    simp only [expectAs] at h
    split_ifs at h with h1 h2
    · simp at h
      exact ⟨_, h.symm⟩
    · simp at h
      exact ⟨_, h.symm⟩
  · intro d
    rw [Decode]
    simp only [parseNQ]
    split
    · exact ⟨BodyOutcome.ret zeroQuad (some Err.eof), _, rfl⟩
    · split
      · rename_i q d2 hq
        exact ⟨BodyOutcome.ret q none, d2, rfl⟩
      · rename_i p d2 hp
        exact ⟨BodyOutcome.panicked p, d2, rfl⟩

/-- Witness for C3: the conversion evaluated on a concrete input-driven
panic and a concrete runtime-error panic, and a concrete failing
expectation check shown to raise an `errorf` panic. -/
theorem C3_witness :
    recoverAtBoundary (BodyOutcome.panicked (errorf "1:2: syntax error: bad")) =
      DecodeBoundary.returns zeroQuad (some (Err.parseErr "1:2: syntax error: bad")) ∧
    recoverAtBoundary (BodyOutcome.panicked (PanicVal.runtimeErr "index out of range")) =
      DecodeBoundary.propagates (PanicVal.runtimeErr "index out of range") ∧
    (∃ m : String,
      PanicVal.errVal "3:4 unexpected . as predicate" = errorf m) :=
  ⟨C3_panic_recover_discipline.1 "1:2: syntax error: bad",
   C3_panic_recover_discipline.2.1 "index out of range",
   C3_panic_recover_discipline.2.2.1
     (NewQuadDecoder [mkTok tokenType.tokenDot "." 3 4] Format.FormatNQ)
     "predicate" tokenType.tokenIRIAbs _ rfl⟩

/-- C7: every fault produced by the token-expectation checks
`expect1As`/`expectAs` carries a message that starts with the offending
token's line and column; when the offending token is not a lexical-error
token the fault is structural and its message additionally reports the
token's kind and the parsing context. -/
theorem C7_fault_messages :
    ∀ (d : QuadDecoder) (c : String) (m : String),
      ((∃ e : tokenType, (expect1As d c e).1 = Except.error (PanicVal.errVal m)) ∨
       (∃ es : List tokenType, (expectAs d c es).1 = Except.error (PanicVal.errVal m))) →
      (∃ rest : String, m = lineColPre ((d.next).1) ++ rest) ∧
      (((d.next).1).typ ≠ tokenType.tokenError →
        m = lineColPre ((d.next).1) ++
          (" unexpected " ++ (tokenTypeStr (((d.next).1).typ) ++ (" as " ++ c)))) := by
  intro d c m h
  rcases h with ⟨e, h⟩ | ⟨es, h⟩
  · simp only [expect1As] at h
    split_ifs at h with h1 h2
    · simp [errorf] at h
      subst h
      refine ⟨⟨": syntax error: " ++ ((d.next).1).text, rfl⟩, ?_⟩
      intro hne
      exact absurd h2 hne
    · simp [errorf, unexpectedPanic] at h
      subst h
      exact ⟨⟨" unexpected " ++ (tokenTypeStr (((d.next).1).typ) ++ (" as " ++ c)), rfl⟩, fun _ => rfl⟩
  · simp only [expectAs] at h
    split_ifs at h with h1 h2
    · simp [errorf] at h
      subst h
      refine ⟨⟨": syntax error: " ++ ((d.next).1).text, rfl⟩, ?_⟩
      intro hne
      exact absurd h2 hne
    · simp [errorf, unexpectedPanic] at h
      subst h
      exact ⟨⟨" unexpected " ++ (tokenTypeStr (((d.next).1).typ) ++ (" as " ++ c)), rfl⟩, fun _ => rfl⟩

/-- The token stream of the C7 witness: a lone dot where a predicate is
required. -/
def c7Toks : List token := [mkTok tokenType.tokenDot "." 2 7]

/-- Witness for C7: the fault raised on a dot token at line 2, column 7
in predicate position is positioned and reports kind and context. -/
theorem C7_witness :
    (∃ rest : String, "2:7 unexpected . as predicate" =
        lineColPre (((NewQuadDecoder c7Toks Format.FormatNQ).next).1) ++ rest) ∧
    ((((NewQuadDecoder c7Toks Format.FormatNQ).next).1).typ ≠ tokenType.tokenError →
      "2:7 unexpected . as predicate" =
        lineColPre (((NewQuadDecoder c7Toks Format.FormatNQ).next).1) ++
          (" unexpected " ++
            (tokenTypeStr ((((NewQuadDecoder c7Toks Format.FormatNQ).next).1).typ) ++
              (" as " ++ "predicate")))) :=
  C7_fault_messages (NewQuadDecoder c7Toks Format.FormatNQ) "predicate" _
    (Or.inl ⟨tokenType.tokenIRIAbs, rfl⟩)

/-- The token stream of the C8 counterexample: a statement whose explicit
graph label is the blank-node lexeme `_:defaultGraph`, identical to the
reserved sentinel id. -/
def c8Toks : List token :=
  [mkTok tokenType.tokenIRIAbs "<http://a>" 1 1, mkTok tokenType.tokenIRIAbs "<http://b>" 1 12,
   mkTok tokenType.tokenLiteral "\"x\"" 1 23, mkTok tokenType.tokenBNode "_:defaultGraph" 1 27,
   mkTok tokenType.tokenDot "." 1 42]

/-- C8 is false of the code in its distinguishability part: the sentinel
is the plain blank term `_:defaultGraph`, and an input statement whose
explicit graph label is the blank-node lexeme `_:defaultGraph` parses to
a quad whose Context is equal to the session's default graph sentinel —
a graph name parsed from input that is not distinguishable from the
sentinel. -/
theorem C8_counterexample :
    (Decode (NewQuadDecoder c8Toks Format.FormatNQ)).1 =
      DecodeBoundary.returns
        { Subj := Term.IRI "http://a", Pred := Term.IRI "http://b",
          Obj := Term.Literal "x" none none, Ctx := Term.Blank "_:defaultGraph" } none ∧
    Term.Blank "_:defaultGraph" = (NewQuadDecoder c8Toks Format.FormatNQ).DefaultGraph :=
  ⟨rfl, rfl⟩

/-- Helper facts for evaluating the expectation checks of the statement
parser on each admissible token kind. -/
theorem contains_subj_iri :
    ([tokenType.tokenIRIAbs, tokenType.tokenBNode].contains tokenType.tokenIRIAbs) = true := rfl

theorem contains_subj_bnode :
    ([tokenType.tokenIRIAbs, tokenType.tokenBNode].contains tokenType.tokenBNode) = true := rfl

theorem contains_obj_iri :
    ([tokenType.tokenIRIAbs, tokenType.tokenBNode, tokenType.tokenLiteral].contains tokenType.tokenIRIAbs) = true := rfl

theorem contains_obj_bnode :
    ([tokenType.tokenIRIAbs, tokenType.tokenBNode, tokenType.tokenLiteral].contains tokenType.tokenBNode) = true := rfl

theorem contains_obj_lit :
    ([tokenType.tokenIRIAbs, tokenType.tokenBNode, tokenType.tokenLiteral].contains tokenType.tokenLiteral) = true := rfl

/-- C8 (amended): the default graph sentinel is stable across `Decode`
calls for the lifetime of the decoder; it differs from every IRI graph
name and from every blank graph name except the one carrying the reserved
id `_:defaultGraph` itself (with which a parsed blank label collides, as
the counterexample shows); and a statement lacking an explicit graph term
is assigned the session's `DefaultGraph` as its Context — so two such
quads from one session compare equal on Context. -/
theorem C8_amended_default_graph_sentinel :
    (∀ d : QuadDecoder, ((Decode d).2).DefaultGraph = d.DefaultGraph) ∧
    (∀ s : String, Term.IRI s ≠ Term.Blank "_:defaultGraph") ∧
    (∀ bid : String, Term.Blank bid = Term.Blank "_:defaultGraph" ↔ bid = "_:defaultGraph") ∧
    (∀ (st ot : tokenType) (s1 s2 s3 : String) (l1 c1 l2 c2 l3 c3 l4 c4 : Nat)
        (rest : List token) (fmt : Format) (g : Term) (tks : Fin 3 → token),
        st = tokenType.tokenIRIAbs ∨ st = tokenType.tokenBNode →
        (ot = tokenType.tokenIRIAbs ∨ ot = tokenType.tokenBNode ∨ ot = tokenType.tokenLiteral) →
        ∃ q : Quad,
          (Decode { l := [⟨st, s1, l1, c1⟩, ⟨tokenType.tokenIRIAbs, s2, l2, c2⟩,
                          ⟨ot, s3, l3, c3⟩, ⟨tokenType.tokenDot, ".", l4, c4⟩] ++ rest,
                    format := fmt, DefaultGraph := g, tokens := tks, peekCount := 0 }).1 =
            DecodeBoundary.returns q none ∧ q.Ctx = g) := by
  refine ⟨Decode_DefaultGraph, ?_, ?_, ?_⟩
  · intro s h
    cases h
  · intro bid
    simp
  · intro st ot s1 s2 s3 l1 c1 l2 c2 l3 c3 l4 c4 rest fmt g tks h1 h2
    rw [Decode]
    simp only [parseNQ]
    rw [skipEOL_not_eol]
    · rcases h1 with rfl | rfl <;> rcases h2 with rfl | rfl | rfl
      · refine ⟨⟨Term.IRI (stripEnds s1), Term.IRI (stripEnds s2), Term.IRI (stripEnds s3), g⟩, ?_, rfl⟩
        simp [QuadDecoder.peek, QuadDecoder.next, nextToken, readTok, writeTok,
          parseNQTerms, expectAs, expect1As, parseObjectTail, parseGraphLabel,
          termFromNodeTok, recoverAtBoundary,
          contains_subj_iri, contains_subj_bnode, contains_obj_iri, contains_obj_bnode,
          contains_obj_lit]
      · refine ⟨⟨Term.IRI (stripEnds s1), Term.IRI (stripEnds s2), Term.Blank s3, g⟩, ?_, rfl⟩
        simp [QuadDecoder.peek, QuadDecoder.next, nextToken, readTok, writeTok,
          parseNQTerms, expectAs, expect1As, parseObjectTail, parseGraphLabel,
          termFromNodeTok, recoverAtBoundary,
          contains_subj_iri, contains_subj_bnode, contains_obj_iri, contains_obj_bnode,
          contains_obj_lit]
      · refine ⟨⟨Term.IRI (stripEnds s1), Term.IRI (stripEnds s2), Term.Literal (stripEnds s3) none none, g⟩, ?_, rfl⟩
        simp [QuadDecoder.peek, QuadDecoder.next, nextToken, readTok, writeTok,
          parseNQTerms, expectAs, expect1As, parseObjectTail, parseGraphLabel,
          termFromNodeTok, recoverAtBoundary,
          contains_subj_iri, contains_subj_bnode, contains_obj_iri, contains_obj_bnode,
          contains_obj_lit]
      · refine ⟨⟨Term.Blank s1, Term.IRI (stripEnds s2), Term.IRI (stripEnds s3), g⟩, ?_, rfl⟩
        simp [QuadDecoder.peek, QuadDecoder.next, nextToken, readTok, writeTok,
          parseNQTerms, expectAs, expect1As, parseObjectTail, parseGraphLabel,
          termFromNodeTok, recoverAtBoundary,
          contains_subj_iri, contains_subj_bnode, contains_obj_iri, contains_obj_bnode,
          contains_obj_lit]
      · refine ⟨⟨Term.Blank s1, Term.IRI (stripEnds s2), Term.Blank s3, g⟩, ?_, rfl⟩
        simp [QuadDecoder.peek, QuadDecoder.next, nextToken, readTok, writeTok,
          parseNQTerms, expectAs, expect1As, parseObjectTail, parseGraphLabel,
          termFromNodeTok, recoverAtBoundary,
          contains_subj_iri, contains_subj_bnode, contains_obj_iri, contains_obj_bnode,
          contains_obj_lit]
      · refine ⟨⟨Term.Blank s1, Term.IRI (stripEnds s2), Term.Literal (stripEnds s3) none none, g⟩, ?_, rfl⟩
        simp [QuadDecoder.peek, QuadDecoder.next, nextToken, readTok, writeTok,
          parseNQTerms, expectAs, expect1As, parseObjectTail, parseGraphLabel,
          termFromNodeTok, recoverAtBoundary,
          contains_subj_iri, contains_subj_bnode, contains_obj_iri, contains_obj_bnode,
          contains_obj_lit]
    · rcases h1 with rfl | rfl <;>
        simp [QuadDecoder.peek, nextToken, readTok, writeTok]

/-- Witness for C8 (amended): a single graph-less statement decoded in a
session whose default graph is `IRI "http://G"` yields a quad whose
Context is that sentinel. -/
theorem C8_witness :
    ∃ q : Quad,
      (Decode { l := [⟨tokenType.tokenIRIAbs, "<http://s>", 1, 1⟩,
                      ⟨tokenType.tokenIRIAbs, "<http://p>", 1, 12⟩,
                      ⟨tokenType.tokenLiteral, "\"v\"", 1, 23⟩,
                      ⟨tokenType.tokenDot, ".", 1, 27⟩] ++ [],
                format := Format.FormatNQ, DefaultGraph := Term.IRI "http://G",
                tokens := fun _ => zeroToken, peekCount := 0 }).1 =
        DecodeBoundary.returns q none ∧ q.Ctx = Term.IRI "http://G" :=
  C8_amended_default_graph_sentinel.2.2.2 tokenType.tokenIRIAbs tokenType.tokenLiteral
    "<http://s>" "<http://p>" "\"v\"" 1 1 1 12 1 23 1 27 [] Format.FormatNQ
    (Term.IRI "http://G") (fun _ => zeroToken) (Or.inl rfl) (Or.inr (Or.inr rfl))

/-- C9: decoding an empty input stream yields the `io.EOF` signal on the
first `Decode` call with no fault, and `DecodeAll` then reports success
with no quads; more generally `Decode` signals `io.EOF` whenever the
remaining token stream is exhausted (only end-of-line tokens left), and
never signals it when an unconsumed statement token is pending. -/
theorem C9_eof_signaling :
    (∀ fmt : Format, (Decode (NewQuadDecoder [] fmt)).1 =
        DecodeBoundary.returns zeroQuad (some Err.eof)) ∧
    (∀ (fmt : Format) (n : Nat),
        (DecodeAll (n + 1) (NewQuadDecoder [] fmt)).1 = DecodeAllOut.res [] none) ∧
    (∀ d : QuadDecoder, d.peekCount = 0 → (∀ t ∈ d.l, t.typ = tokenType.tokenEOL) →
        (Decode d).1 = DecodeBoundary.returns zeroQuad (some Err.eof)) ∧
    (∀ (d : QuadDecoder) (t : token) (ts : List token), d.peekCount = 0 → d.l = t :: ts →
        t.typ ≠ tokenType.tokenEOL → t.typ ≠ tokenType.tokenEOF →
        ∀ q : Quad, (Decode d).1 ≠ DecodeBoundary.returns q (some Err.eof)) := by
  refine ⟨fun fmt => rfl, fun fmt n => rfl, ?_, ?_⟩
  · intro d h0 hall
    have hskip := skipEOLFuel_all_eol (d.l.length + d.peekCount + 1) d h0 hall (by omega)
    rw [Decode]
    simp only [parseNQ]
    rw [skipEOL]
    simp [hskip, recoverAtBoundary]
  · intro d t ts h0 hL hnE hnF q
    have hpk : ((d.peek).1).typ = t.typ := by
      simp [QuadDecoder.peek, h0, hL, nextToken, readTok, writeTok]
    have hskip : skipEOL d = (d.peek).2 := skipEOL_not_eol d (by rw [hpk]; exact hnE)
    have hA : (((d.peek).2).peek).1 = t := by
      simp [QuadDecoder.peek, h0, hL, nextToken, readTok, writeTok]
    rw [Decode]
    simp only [parseNQ]
    rw [hskip, hA]
    simp only [hnF, if_neg]
    rcases hq : parseNQTerms (((d.peek).2).peek).2 with ⟨rq, d2⟩
    cases rq with
    | ok q2 => simp [recoverAtBoundary]
    | error p =>
      cases p with
      | runtimeErr s => simp [recoverAtBoundary]
      | errVal m => simp [recoverAtBoundary]

/-- Witness for C9: evaluated on an all-end-of-line stream (signals EOF),
on a pending-dot stream (does not signal EOF), and on the empty stream
through `DecodeAll`. -/
theorem C9_witness :
    (Decode (NewQuadDecoder [mkTok tokenType.tokenEOL "" 1 1] Format.FormatNQ)).1 =
      DecodeBoundary.returns zeroQuad (some Err.eof) ∧
    (∀ q : Quad,
      (Decode (NewQuadDecoder [mkTok tokenType.tokenDot "." 1 1] Format.FormatNQ)).1 ≠
        DecodeBoundary.returns q (some Err.eof)) ∧
    (DecodeAll 1 (NewQuadDecoder [] Format.FormatTTL)).1 = DecodeAllOut.res [] none :=
  ⟨C9_eof_signaling.2.2.1 (NewQuadDecoder [mkTok tokenType.tokenEOL "" 1 1] Format.FormatNQ)
      rfl (by decide),
   fun q => C9_eof_signaling.2.2.2 (NewQuadDecoder [mkTok tokenType.tokenDot "." 1 1] Format.FormatNQ)
      (mkTok tokenType.tokenDot "." 1 1) [] rfl rfl (by decide) (by decide) q,
   C9_eof_signaling.2.1 Format.FormatTTL 0⟩
